import Mathlib

/-!
Verification of the dual-percolation diagnosis pipeline (Shang theory).

This file shallowly embeds the computational core of the repository:
  * `src/src/diagnostics.py` — proxy mapping (`calculate_intermediate_variables`),
    the seven-equation engine (`compute_core_equations`), the threshold
    classifier (`diagnose_system`) and the orchestrator (`quick_diagnose`);
  * `src/src/core_equations.py` — the standalone `calculate_TP` function.

Modelling conventions:
  * Python floats are modelled as real numbers (`ℝ`); `np.exp` is `Real.exp`,
    `np.log` is `Real.log`, `np.clip x lo hi` is `min (max x lo) hi`.
  * Python dictionaries with string keys are modelled as association lists
    (`Dict`); `d[k]` raising `KeyError` is modelled with `Except`.
  * Python float division `x / y` raises `ZeroDivisionError` when `y == 0`,
    modelled by `pydiv` returning `Except.error`.  Divisions whose operands
    are numpy `float64` scalars (the `/ zeta_plus` and `/ zeta_minus`
    divisions, whose numerators contain the result of `np.exp`) do not raise
    in Python; they produce IEEE-754 non-finite values, which have no
    counterpart in `ℝ` and are modelled as total real division.
  * Unpacking a list into 15 names raises `ValueError` when the length is
    not 15, modelled by the catch-all branch of a 15-element list match.
-/

namespace Shang

/-- A Python dict with string keys and real-number values, modelled as an
association list.  Lookup takes the first binding with the given key. -/
abbrev Dict : Type := List (String × ℝ)

/-- Python subscript access `d[k]`: the value bound to `k`, or a `KeyError`
when the key is absent. -/
def dget (d : Dict) (k : String) : Except String ℝ :=
  match List.lookup k d with
  | some v => Except.ok v
  | none => Except.error ("KeyError: " ++ k)

/-- Python dict merge `\x7b**defaults, **custom\x7d`, modelled up to key order:
a key bound in `custom` shadows the binding in `defaults`, every other key of
`defaults` keeps its default value, and keys of `custom` absent from
`defaults` are present in the result.  (Python keeps the insertion order of
`defaults` first; only lookup semantics matter here, so the overriding
bindings are simply placed in front.) -/
def pyMerge (defaults custom : Dict) : Dict :=
  custom ++ defaults

/-- The module-level calibrated parameter table `_MODEL_PARAMS` of
`diagnostics.py`. -/
def _MODEL_PARAMS : Dict :=
  [("delta", 1.0), ("R", 2.0), ("R_plus", 2.2),
   ("alpha", 0.1), ("rho", 0.2), ("mu", 0.05), ("kappa", 0.05), ("chi", 0.1),
   ("beta_plus", 0.1), ("beta_minus", 0.08), ("tau", 0.15), ("iota", 0.2),
   ("zeta_plus", 0.05), ("zeta_minus", 0.07), ("lambda_", 0.1),
   ("omega", 4.1)]

/-- The module-level diagnostic threshold table `_THRESHOLDS` of
`diagnostics.py`. -/
def _THRESHOLDS : Dict :=
  [("phi_plus_critical", 0.33), ("phi_minus_safe", 0.10),
   ("phi_minus_danger", 0.18), ("TP_forward", 0.52), ("TP_collapse", 0.15)]

/-- The intermediate-variable record returned by
`calculate_intermediate_variables` (11 derived scalars plus the pass-through
`gini`). -/
structure IntermediateVars where
  P : ℝ
  K_plus : ℝ
  K_minus : ℝ
  sigma_plus : ℝ
  sigma_minus : ℝ
  A : ℝ
  D : ℝ
  Lambda : ℝ
  Psi : ℝ
  G : ℝ
  H : ℝ
  gini : ℝ

/-- The 16 named coefficients read from the parameter dict by
`compute_core_equations`. -/
structure EngineParams where
  delta : ℝ
  R : ℝ
  R_plus : ℝ
  alpha : ℝ
  rho : ℝ
  mu : ℝ
  kappa : ℝ
  chi : ℝ
  beta_plus : ℝ
  beta_minus : ℝ
  tau : ℝ
  iota : ℝ
  zeta_plus : ℝ
  zeta_minus : ℝ
  lambda_ : ℝ
  omega : ℝ

/-- The record returned by `compute_core_equations`. -/
structure CoreResults where
  T_plus : ℝ
  T_minus : ℝ
  d_sigma_plus : ℝ
  d_sigma_minus : ℝ
  phi_plus : ℝ
  phi_minus : ℝ
  TP : ℝ
  eta : ℝ

/-- The five named cutoffs read from the threshold dict by
`diagnose_system`. -/
structure ThresholdVals where
  phi_plus_critical : ℝ
  phi_minus_safe : ℝ
  phi_minus_danger : ℝ
  TP_forward : ℝ
  TP_collapse : ℝ

/-- The diagnosis record returned by `diagnose_system`: status tag, label,
risk level, warning list and the three threshold-met boolean flags (in the
source the flags are the nested dict `thresholds_met`).  The numeric
interpolation inside the warning strings is not modelled; only the identity
and number of emitted warnings matter. -/
structure Diagnosis where
  status : String
  label : String
  risk_level : String
  warnings : List String
  phi_plus_ok : Bool
  phi_minus_safe : Bool
  TP_forward_ok : Bool

/-- The full report returned by `quick_diagnose`. -/
structure Report where
  input_proxies : List ℝ
  intermediate_variables : IntermediateVars
  core_results : CoreResults
  diagnosis : Diagnosis
  model_parameters_used : Dict
  thresholds_used : Dict

/-- `np.clip(x, lo, hi) = np.minimum(np.maximum(x, lo), hi)`. -/
noncomputable def np_clip (x lo hi : ℝ) : ℝ :=
  min (max x lo) hi

/-- Python float division: raises `ZeroDivisionError` when the denominator
is zero, otherwise returns the real quotient. -/
noncomputable def pydiv (x y : ℝ) : Except String ℝ :=
  if y = 0 then Except.error "ZeroDivisionError: float division by zero"
  else Except.ok (x / y)

/-- `calculate_intermediate_variables` of `diagnostics.py`: unpacks the
15-element proxy list (a `ValueError` when the length differs) and maps it
to the intermediate variables. -/
noncomputable def calculate_intermediate_variables (proxy_values : List ℝ) :
    Except String IntermediateVars :=
  match proxy_values with
  | [gdp_growth, non_cash_ratio, npl_ratio, shadow_economy, gini,
     polarization, net_migration, digital_coverage, electricity_access,
     internet_penetration, _fintech_growth, youth_unemployment,
     debt_service_ratio, crypto_estimate, toxicity_index] =>
    Except.ok
      ⟨(gdp_growth * 0.4 + digital_coverage * 0.3 + internet_penetration * 0.3) * 10,
       np_clip (non_cash_ratio * (1 - npl_ratio * 5)) 0.1 0.95,
       np_clip (0.3 * shadow_economy + 0.7 * crypto_estimate) 0.05 0.8,
       np_clip (0.7 - polarization * 0.5 + net_migration * 0.01 - toxicity_index * 0.3) 0.1 0.9,
       np_clip (0.1 + youth_unemployment * 0.6 + debt_service_ratio * 0.3 + polarization * 0.4) 0.05 0.8,
       np_clip (0.3 + net_migration * 0.05 + digital_coverage * 0.2 - toxicity_index * 0.15) 0.1 0.9,
       polarization,
       np_clip (1.5 - shadow_economy - npl_ratio * 10) 0.5 3.0,
       1.0 - toxicity_index,
       (gdp_growth * 10) * 0.7 + electricity_access * 0.3,
       np_clip (0.8 - youth_unemployment * 0.5 - toxicity_index * 0.3) 0.2 1.0,
       gini⟩
  | _ => Except.error "ValueError: proxy_values must have length 15"

/-- Reads the 16 coefficients used by `compute_core_equations` from the
parameter dict (each Python subscript access can raise `KeyError`). -/
def readParams (pm : Dict) : Except String EngineParams := do
  let delta ← dget pm "delta"
  let r ← dget pm "R"
  let r_plus ← dget pm "R_plus"
  let alpha ← dget pm "alpha"
  let rho ← dget pm "rho"
  let mu ← dget pm "mu"
  let kappa ← dget pm "kappa"
  let chi ← dget pm "chi"
  let beta_plus ← dget pm "beta_plus"
  let beta_minus ← dget pm "beta_minus"
  let tau ← dget pm "tau"
  let iota ← dget pm "iota"
  let zeta_plus ← dget pm "zeta_plus"
  let zeta_minus ← dget pm "zeta_minus"
  let lambda_ ← dget pm "lambda_"
  let omega ← dget pm "omega"
  pure ⟨delta, r, r_plus, alpha, rho, mu, kappa, chi, beta_plus, beta_minus,
        tau, iota, zeta_plus, zeta_minus, lambda_, omega⟩

/-- `compute_core_equations` of `diagnostics.py`: the seven-equation
steady-state engine.  The only fallible arithmetic operation is the Python
float division `chi / G` in equation 4; the `/ zeta_plus` and `/ zeta_minus`
divisions act on numpy `float64` operands and never raise (see the header
comment). -/
noncomputable def compute_core_equations (intermediate_vars : IntermediateVars)
    (params : Dict) : Except String CoreResults :=
  match readParams params with
  | Except.error e => Except.error e
  | Except.ok pm =>
    let p := intermediate_vars
    let T_plus := p.sigma_plus * max (p.P - pm.delta) 0 * p.K_plus *
      Real.exp (-pm.lambda_ * 1)
    let T_minus := p.sigma_minus * max (p.P - pm.R_plus) 0 * p.K_minus *
      Real.exp (-pm.lambda_ * 1)
    let d_sigma_plus := pm.alpha * max (pm.R - p.P) 0 + pm.rho * p.H -
      pm.mu * p.sigma_minus
    match pydiv pm.chi p.G with
    | Except.error e => Except.error e
    | Except.ok chi_over_G =>
      let d_sigma_minus := pm.kappa * max (p.P - pm.R_plus) 0 -
        p.Lambda * p.Psi * p.sigma_minus - chi_over_G
      let phi_plus := np_clip (pm.beta_plus * T_plus * (1 + pm.tau * p.A) / pm.zeta_plus) 0.05 0.8
      let phi_minus := np_clip (pm.beta_minus * T_minus * (1 + pm.iota * p.D) / pm.zeta_minus) 0.02 0.6
      let CCA_plus := T_plus * 10
      let CCA_minus := T_minus * 10
      let eta := 1.0 - p.gini
      let TP := CCA_plus * eta - pm.omega * CCA_minus
      Except.ok ⟨T_plus, T_minus, d_sigma_plus, d_sigma_minus,
                 phi_plus, phi_minus, TP, eta⟩

/-- Reads the five cutoffs used by `diagnose_system` from the threshold dict.
(The source looks the keys up lazily inside the rule chain; when all five
keys are present — the case every claim is about — the behaviour is
identical.) -/
def readThresholds (t : Dict) : Except String ThresholdVals := do
  let pc ← dget t "phi_plus_critical"
  let ms ← dget t "phi_minus_safe"
  let md ← dget t "phi_minus_danger"
  let tf ← dget t "TP_forward"
  let tc ← dget t "TP_collapse"
  pure ⟨pc, ms, md, tf, tc⟩

/-- The pure body of `diagnose_system`: the ordered if/elif rule chain for
the status/label/risk triple, the unconditionally evaluated warning list and
the three threshold-met flags. -/
noncomputable def diagnose_pure (phi_plus phi_minus TP : ℝ)
    (t : ThresholdVals) : Diagnosis :=
  let warnings :=
    (if phi_minus > t.phi_minus_safe then ["负商网络连通度超过安全线。"] else []) ++
    (if TP < t.TP_forward then ["系统跃迁潜力不足。"] else [])
  let phi_plus_ok := decide (phi_plus ≥ t.phi_plus_critical)
  let phi_minus_safe := decide (phi_minus ≤ t.phi_minus_safe)
  let TP_forward_ok := decide (TP ≥ t.TP_forward)
  if phi_plus ≥ t.phi_plus_critical ∧ phi_minus ≤ t.phi_minus_safe ∧ TP ≥ t.TP_forward then
    ⟨"deep_positive_transition", "✅ 深度正跃迁", "low",
     warnings, phi_plus_ok, phi_minus_safe, TP_forward_ok⟩
  else if phi_plus ≥ t.phi_plus_critical ∧ phi_minus ≤ t.phi_minus_danger ∧ TP ≥ t.TP_collapse then
    ⟨"fragile_positive_transition", "⚠️ 脆弱正跃迁/停滞", "medium",
     warnings, phi_plus_ok, phi_minus_safe, TP_forward_ok⟩
  else if phi_minus > t.phi_minus_danger ∧ TP < t.TP_collapse then
    ⟨"negative_transition_warning", "🚨 负跃迁预警", "high",
     warnings, phi_plus_ok, phi_minus_safe, TP_forward_ok⟩
  else
    ⟨"threshold_hovering", "⚖️ 阈值徘徊", "variable",
     warnings, phi_plus_ok, phi_minus_safe, TP_forward_ok⟩

/-- `diagnose_system` of `diagnostics.py`: threshold lookups followed by the
pure classification. -/
noncomputable def diagnose_system (phi_plus phi_minus TP : ℝ)
    (thresholds : Dict) : Except String Diagnosis :=
  match readThresholds thresholds with
  | Except.error e => Except.error e
  | Except.ok t => Except.ok (diagnose_pure phi_plus phi_minus TP t)

/-- `quick_diagnose` of `diagnostics.py`: merges the override dicts over the
defaults, runs mapper → engine → classifier, and returns the full report.
`custom_params = []` models the Python default `custom_params=None`. -/
noncomputable def quick_diagnose (proxy_values : List ℝ)
    (custom_params custom_thresholds : Dict) : Except String Report :=
  let params := pyMerge _MODEL_PARAMS custom_params
  let thresholds := pyMerge _THRESHOLDS custom_thresholds
  match calculate_intermediate_variables proxy_values with
  | Except.error e => Except.error e
  | Except.ok intermediate_vars =>
    match compute_core_equations intermediate_vars params with
    | Except.error e => Except.error e
    | Except.ok core_results =>
      match diagnose_system core_results.phi_plus core_results.phi_minus
          core_results.TP thresholds with
      | Except.error e => Except.error e
      | Except.ok diagnosis =>
        Except.ok ⟨proxy_values, intermediate_vars, core_results, diagnosis,
                   params, thresholds⟩

/-- `calculate_TP` of `core_equations.py`: the standalone transition-potential
function.  Its efficiency factor is `eta = np.log(G + 1)` (the body's own
formula), and the `omega` argument defaults to `4.1` in the source. -/
noncomputable def calculate_TP (CCA_plus G CCA_minus omega : ℝ) : ℝ :=
  let eta := Real.log (G + 1)
  CCA_plus * eta - omega * CCA_minus

/-! ### Helper lemmas -/

lemma np_clip_le_hi (x lo hi : ℝ) : np_clip x lo hi ≤ hi :=
  min_le_right _ _

lemma lo_le_np_clip (x lo hi : ℝ) (h : lo ≤ hi) : lo ≤ np_clip x lo hi :=
  le_min (le_max_right x lo) h

/-- The default parameter dict read into the engine-parameter record. -/
def defaultParams : EngineParams :=
  ⟨1.0, 2.0, 2.2, 0.1, 0.2, 0.05, 0.05, 0.1, 0.1, 0.08, 0.15, 0.2,
   0.05, 0.07, 0.1, 4.1⟩

lemma readParams_default : readParams _MODEL_PARAMS = Except.ok defaultParams := rfl

/-- The default threshold dict read into the threshold record. -/
def defaultThresholds : ThresholdVals :=
  ⟨0.33, 0.10, 0.18, 0.52, 0.15⟩

lemma readThresholds_default :
    readThresholds _THRESHOLDS = Except.ok defaultThresholds := rfl

/-- The reference proxy vector of the end-to-end scenario (the module
self-check input of `diagnostics.py`). -/
def refProxies : List ℝ :=
  [0.044, 0.92, 0.012, 0.10, 0.41, 0.40, 1.5, 0.95, 1.00, 0.96, 0.25,
   0.091, 0.069, 0.05, 0.35]

/-- The intermediate variables the proxy mapper computes on `refProxies`. -/
noncomputable def refVars : IntermediateVars :=
  ⟨5.906, 0.8648, 0.065, 0.41, 0.3353, 0.5125, 0.40, 1.28, 0.65, 0.608,
   0.6495, 0.41⟩

lemma calc_ref :
    calculate_intermediate_variables refProxies = Except.ok refVars := by
  simp only [calculate_intermediate_variables, refProxies, refVars, np_clip,
    Except.ok.injEq, IntermediateVars.mk.injEq]
  norm_num [min_def, max_def]

lemma exp_factor_le_one : Real.exp (-(0.1 : ℝ) * 1) ≤ 1 := by
  have h : (-(0.1 : ℝ) * 1) ≤ 0 := by norm_num
  calc Real.exp (-(0.1 : ℝ) * 1) ≤ Real.exp 0 := Real.exp_le_exp.mpr h
  _ = 1 := Real.exp_zero

lemma le_exp_factor : (0.9 : ℝ) ≤ Real.exp (-(0.1 : ℝ) * 1) := by
  have h := Real.add_one_le_exp (-(0.1 : ℝ) * 1)
  linarith

/-- On the reference intermediate variables with default parameters, the
engine succeeds and its outputs satisfy all three rule-1 comparisons. -/
lemma core_ref :
    ∃ r, compute_core_equations refVars _MODEL_PARAMS = Except.ok r ∧
      0.33 ≤ r.phi_plus ∧ r.phi_minus ≤ 0.10 ∧ 0.52 ≤ r.TP := by
  have hE1 := exp_factor_le_one
  have hE9 := le_exp_factor
  have hEpos := Real.exp_pos (-(0.1 : ℝ) * 1)
  have hmax1 : max ((5.906 : ℝ) - 1.0) 0 = 4.906 := by norm_num [max_def]
  have hmax2 : max ((5.906 : ℝ) - 2.2) 0 = 3.706 := by norm_num [max_def]
  have hdiv : pydiv (0.1 : ℝ) (0.608 : ℝ) = Except.ok (0.1 / 0.608) := by
    unfold pydiv
    rw [if_neg (by norm_num)]
  simp only [compute_core_equations, readParams_default, defaultParams,
    refVars, hdiv, hmax1, hmax2]
  refine ⟨_, rfl, ?_, ?_, ?_⟩
  · rw [np_clip]
    refine le_min (le_trans ?_ (le_max_left _ _)) (by norm_num)
    rw [le_div_iff₀ (by norm_num)]
    nlinarith [hE9, hEpos]
  · rw [np_clip]
    refine le_trans (min_le_left _ _) (max_le ?_ (by norm_num))
    rw [div_le_iff₀ (by norm_num)]
    nlinarith [hE1, hEpos]
  · nlinarith [hE9, hEpos]

/-- Rule 1 of the classifier fires on the default thresholds whenever the
three rule-1 comparisons hold. -/
lemma diagnose_ref (pp pm tp : ℝ) (h1 : 0.33 ≤ pp) (h2 : pm ≤ 0.10)
    (h3 : 0.52 ≤ tp) :
    ∃ d, diagnose_system pp pm tp _THRESHOLDS = Except.ok d ∧
      d.status = "deep_positive_transition" := by
  refine ⟨diagnose_pure pp pm tp defaultThresholds, ?_, ?_⟩
  · simp only [diagnose_system, readThresholds_default]
  · simp only [diagnose_pure, defaultThresholds]
    rw [if_pos ⟨h1, h2, h3⟩]

/-- End-to-end evaluation of the orchestrator on the reference vector with
no overrides: the resulting status is `deep_positive_transition`. -/
lemma quick_ref_status :
    (quick_diagnose refProxies [] []).map (fun r => r.diagnosis.status) =
      Except.ok "deep_positive_transition" := by
  obtain ⟨r, hr, hp, hm, ht⟩ := core_ref
  obtain ⟨d, hd, hs⟩ := diagnose_ref r.phi_plus r.phi_minus r.TP hp hm ht
  simp only [quick_diagnose, pyMerge, List.nil_append, calc_ref, hr, hd,
    Except.map, hs]

/-! ### Projections of the classifier output -/

lemma diagnose_pure_status (pp pm tp : ℝ) (t : ThresholdVals) :
    (diagnose_pure pp pm tp t).status =
      (if pp ≥ t.phi_plus_critical ∧ pm ≤ t.phi_minus_safe ∧ tp ≥ t.TP_forward then
        "deep_positive_transition"
      else if pp ≥ t.phi_plus_critical ∧ pm ≤ t.phi_minus_danger ∧ tp ≥ t.TP_collapse then
        "fragile_positive_transition"
      else if pm > t.phi_minus_danger ∧ tp < t.TP_collapse then
        "negative_transition_warning"
      else "threshold_hovering") := by
  unfold diagnose_pure
  split_ifs <;> rfl

lemma diagnose_pure_warnings (pp pm tp : ℝ) (t : ThresholdVals) :
    (diagnose_pure pp pm tp t).warnings =
      (if pm > t.phi_minus_safe then ["负商网络连通度超过安全线。"] else []) ++
      (if tp < t.TP_forward then ["系统跃迁潜力不足。"] else []) := by
  unfold diagnose_pure
  split_ifs <;> rfl

lemma diagnose_pure_phi_plus_ok (pp pm tp : ℝ) (t : ThresholdVals) :
    (diagnose_pure pp pm tp t).phi_plus_ok = decide (pp ≥ t.phi_plus_critical) := by
  unfold diagnose_pure
  split_ifs <;> rfl

lemma diagnose_pure_phi_minus_safe (pp pm tp : ℝ) (t : ThresholdVals) :
    (diagnose_pure pp pm tp t).phi_minus_safe = decide (pm ≤ t.phi_minus_safe) := by
  unfold diagnose_pure
  split_ifs <;> rfl

lemma diagnose_pure_TP_forward_ok (pp pm tp : ℝ) (t : ThresholdVals) :
    (diagnose_pure pp pm tp t).TP_forward_ok = decide (tp ≥ t.TP_forward) := by
  unfold diagnose_pure
  split_ifs <;> rfl

/-! ### Claim C1 -/

/-- C1 counterexample: on the reference 15-element proxy vector with all
defaults, the diagnosis status produced by the pipeline is NOT
`threshold_hovering`, contrary to the claim. -/
theorem C1_counterexample :
    (quick_diagnose refProxies [] []).map (fun r => r.diagnosis.status) ≠
      Except.ok "threshold_hovering" := by
  intro h
  rw [quick_ref_status] at h
  exact absurd (Except.ok.inj h) (by decide)

/-- C1 (amended): calling the top-level diagnose operation on the reference
15-element proxy vector with all defaults returns a report whose diagnosis
status is `deep_positive_transition` (rule 1 fires: phi_plus is clipped to
0.8 ≥ 0.33, phi_minus ≈ 0.090 ≤ 0.10 and TP ≈ 6.29 ≥ 0.52, with phi_plus,
phi_minus and TP computed by the pipeline's own formulas). -/
theorem C1_theorem :
    (quick_diagnose refProxies [] []).map (fun r => r.diagnosis.status) =
      Except.ok "deep_positive_transition" :=
  quick_ref_status

/-! ### Claim C2 -/

/-- Intermediate variables for the C2 comparison point: `P = 2`, both credit
codes and both factors `1`, `G = 1`, `gini = 0`. -/
noncomputable def c2Vars : IntermediateVars :=
  ⟨2, 1, 1, 1, 1, 0, 0, 1, 1, 1, 1, 0⟩

/-- Parameter dict for the C2 comparison point (`lambda_ = 0` so the
exponential discount is exactly `1`; `omega = 4.1` as in the defaults). -/
def c2Params : Dict :=
  [("delta", 1), ("R", 2), ("R_plus", 2), ("alpha", 0), ("rho", 0),
   ("mu", 0), ("kappa", 0), ("chi", 1), ("beta_plus", 1), ("beta_minus", 1),
   ("tau", 0), ("iota", 0), ("zeta_plus", 1), ("zeta_minus", 1),
   ("lambda_", 0), ("omega", 4.1)]

/-- `c2Params` read into the engine-parameter record. -/
def c2P : EngineParams :=
  ⟨1, 2, 2, 0, 0, 0, 0, 1, 1, 1, 0, 0, 1, 1, 0, 4.1⟩

lemma readParams_c2 : readParams c2Params = Except.ok c2P := rfl

/-- The engine output on the C2 comparison point. -/
noncomputable def c2Core : CoreResults :=
  ⟨1, 0, 0, -2, 0.8, 0.02, 10, 1⟩

lemma c2_eval : compute_core_equations c2Vars c2Params = Except.ok c2Core := by
  have hd : pydiv (1 : ℝ) (1 : ℝ) = Except.ok (1 / 1) := by
    unfold pydiv
    rw [if_neg (by norm_num)]
  simp only [compute_core_equations, readParams_c2, c2P, c2Vars, hd, c2Core,
    np_clip, Except.ok.injEq, CoreResults.mk.injEq]
  norm_num [min_def, max_def, Real.exp_zero]

/-- C2 counterexample: on a concrete evaluation point the pipeline's
equation-7 value (TP = 10, with eta = 1 − gini = 1) differs from what the
standalone `calculate_TP` returns on the same `CCA_plus = T_plus·10`,
`CCA_minus = T_minus·10` and `omega` (it returns `10·log 2` because its
efficiency factor is `log(G+1)`, not `1 − gini`). -/
theorem C2_counterexample :
    compute_core_equations c2Vars c2Params = Except.ok c2Core ∧
    calculate_TP (c2Core.T_plus * 10) c2Vars.G (c2Core.T_minus * 10) 4.1 ≠
      c2Core.TP := by
  refine ⟨c2_eval, ?_⟩
  have h2e : (2 : ℝ) < Real.exp 1 := by
    have h := Real.exp_one_gt_d9
    linarith
  have hlog : Real.log 2 < 1 := by
    have h := Real.log_lt_log (by norm_num : (0 : ℝ) < 2) h2e
    rwa [Real.log_exp] at h
  simp only [calculate_TP, c2Core, c2Vars]
  intro h
  norm_num at h
  nlinarith [hlog]

/-- C2 (amended): for every intermediate-variable record and parameter dict
the pipeline's equation 7 computes `eta = 1 − gini` and
`TP = (T_plus·10)·eta − omega·(T_minus·10)`; the standalone `calculate_TP`
of `core_equations.py` instead uses `eta = log(G+1)` and so does not compute
the same value on the same inputs (see the counterexample). -/
theorem C2_theorem (vars : IntermediateVars) (pd : Dict) (p : EngineParams)
    (r : CoreResults) (hp : readParams pd = Except.ok p)
    (hr : compute_core_equations vars pd = Except.ok r) :
    r.eta = 1 - vars.gini ∧
    r.TP = (r.T_plus * 10) * r.eta - p.omega * (r.T_minus * 10) := by
  rcases hd : pydiv p.chi vars.G with e | q
  · simp only [compute_core_equations, hp, hd] at hr
    exact Except.noConfusion hr
  · simp only [compute_core_equations, hp, hd] at hr
    rw [Except.ok.injEq] at hr
    subst hr
    exact ⟨by norm_num, rfl⟩

/-- C2 witness: the amended equation-7 law instantiated on the concrete C2
evaluation point. -/
theorem C2_witness :
    c2Core.eta = 1 - c2Vars.gini ∧
    c2Core.TP = (c2Core.T_plus * 10) * c2Core.eta - c2P.omega * (c2Core.T_minus * 10) :=
  C2_theorem c2Vars c2Params c2P c2Core readParams_c2 c2_eval

/-! ### Claim C3 -/

/-- An intermediate-variable record with `G = 0` and every other field 1. -/
noncomputable def g0Vars : IntermediateVars :=
  ⟨1, 1, 1, 1, 1, 1, 1, 1, 1, 0, 1, 1⟩

/-- C3 counterexample: on an intermediate-variable record with `G = 0` and
the default parameters, the equation engine raises `ZeroDivisionError`
(Python float division `chi / G`) instead of returning a result record with
non-finite values, contrary to the claim. -/
theorem C3_counterexample :
    compute_core_equations g0Vars _MODEL_PARAMS =
      Except.error "ZeroDivisionError: float division by zero" := by
  simp only [compute_core_equations, readParams_default, g0Vars, pydiv]
  norm_num

/-- C3 (amended): for every intermediate-variable record with `G = 0` (and
any parameter dict containing the 16 coefficients), the equation engine
raises `ZeroDivisionError` from the Python float division `chi / G` rather
than returning a record; when `G ≠ 0` no exception is raised and a result
record is returned (in particular `zeta_plus = 0` or `zeta_minus = 0` does
not raise: those divisions act on numpy `float64` scalars, whose non-finite
results lie outside this real-valued model). -/
theorem C3_theorem (vars : IntermediateVars) (pd : Dict) (p : EngineParams)
    (hp : readParams pd = Except.ok p) :
    (vars.G = 0 → compute_core_equations vars pd =
      Except.error "ZeroDivisionError: float division by zero") ∧
    (vars.G ≠ 0 → ∃ r, compute_core_equations vars pd = Except.ok r) := by
  constructor
  · intro hG
    simp only [compute_core_equations, hp, pydiv, hG, if_pos]
  · intro hG
    rcases h : compute_core_equations vars pd with e | r
    · exfalso
      simp only [compute_core_equations, hp, pydiv, if_neg hG] at h
      exact Except.noConfusion h
    · exact ⟨r, rfl⟩

/-- C3 witness: the amended exception law instantiated on the concrete
`G = 0` record with the default parameters. -/
theorem C3_witness :
    (g0Vars.G = 0 → compute_core_equations g0Vars _MODEL_PARAMS =
      Except.error "ZeroDivisionError: float division by zero") ∧
    (g0Vars.G ≠ 0 → ∃ r, compute_core_equations g0Vars _MODEL_PARAMS = Except.ok r) :=
  C3_theorem g0Vars _MODEL_PARAMS defaultParams readParams_default

/-! ### Claim C4 -/

/-- C4: for every real triple and complete threshold mapping, the classifier
returns exactly one of the four statuses via the first-match rule order; in
particular whenever rule 1's `phi_minus ≤ phi_minus_safe` condition fails
but `phi_plus ≥ phi_plus_critical`, `phi_minus ≤ phi_minus_danger` and
`TP ≥ TP_collapse` all hold, the status is `fragile_positive_transition`. -/
theorem C4_theorem (pp pm tp : ℝ) (td : Dict) (t : ThresholdVals)
    (d : Diagnosis) (ht : readThresholds td = Except.ok t)
    (hd : diagnose_system pp pm tp td = Except.ok d) :
    (d.status = "deep_positive_transition" ∨
     d.status = "fragile_positive_transition" ∨
     d.status = "negative_transition_warning" ∨
     d.status = "threshold_hovering") ∧
    (¬ pm ≤ t.phi_minus_safe → pp ≥ t.phi_plus_critical →
      pm ≤ t.phi_minus_danger → tp ≥ t.TP_collapse →
      d.status = "fragile_positive_transition") := by
  simp only [diagnose_system, ht] at hd
  rw [Except.ok.injEq] at hd
  subst hd
  constructor
  · rw [diagnose_pure_status]
    split_ifs <;> simp
  · intro h1 h2 h3 h4
    rw [diagnose_pure_status, if_neg (fun hc => h1 hc.2.1), if_pos ⟨h2, h3, h4⟩]

/-- The classifier output on `phi_plus = 0.4`, `phi_minus = 0.15`, `TP = 1`
with default thresholds: rule 1 fails on `phi_minus`, rule 2 fires. -/
def c4Diag : Diagnosis :=
  ⟨"fragile_positive_transition", "⚠️ 脆弱正跃迁/停滞", "medium",
   ["负商网络连通度超过安全线。"], true, false, true⟩

lemma c4_eval :
    diagnose_system 0.4 0.15 1 _THRESHOLDS = Except.ok c4Diag := by
  simp only [diagnose_system, readThresholds_default, Except.ok.injEq]
  have h1 : ¬ ((0.4 : ℝ) ≥ 0.33 ∧ (0.15 : ℝ) ≤ 0.10 ∧ (1 : ℝ) ≥ 0.52) := by
    intro h
    exact absurd h.2.1 (by norm_num)
  have h2 : (0.4 : ℝ) ≥ 0.33 ∧ (0.15 : ℝ) ≤ 0.18 ∧ (1 : ℝ) ≥ 0.15 := by
    norm_num
  unfold diagnose_pure
  rw [if_neg (by exact h1), if_pos (by exact h2)]
  simp only [c4Diag, Diagnosis.mk.injEq, defaultThresholds]
  norm_num

/-- C4 witness: the rule-order law instantiated at
`(phi_plus, phi_minus, TP) = (0.4, 0.15, 1)` with the default thresholds,
where rule 1's `phi_minus` condition fails but rule 2 succeeds. -/
theorem C4_witness :
    (c4Diag.status = "deep_positive_transition" ∨
     c4Diag.status = "fragile_positive_transition" ∨
     c4Diag.status = "negative_transition_warning" ∨
     c4Diag.status = "threshold_hovering") ∧
    (¬ (0.15 : ℝ) ≤ defaultThresholds.phi_minus_safe →
      (0.4 : ℝ) ≥ defaultThresholds.phi_plus_critical →
      (0.15 : ℝ) ≤ defaultThresholds.phi_minus_danger →
      (1 : ℝ) ≥ defaultThresholds.TP_collapse →
      c4Diag.status = "fragile_positive_transition") :=
  C4_theorem 0.4 0.15 1 _THRESHOLDS defaultThresholds c4Diag
    readThresholds_default c4_eval

/-! ### Claim C5 -/

/-- C5: whenever the equation engine returns a result record, the post-clip
invariant holds: `phi_plus ∈ [0.05, 0.8]` and `phi_minus ∈ [0.02, 0.6]`
(over this real-valued model every input value is finite). -/
theorem C5_theorem (vars : IntermediateVars) (pd : Dict) (r : CoreResults)
    (h : compute_core_equations vars pd = Except.ok r) :
    0.05 ≤ r.phi_plus ∧ r.phi_plus ≤ 0.8 ∧
    0.02 ≤ r.phi_minus ∧ r.phi_minus ≤ 0.6 := by
  rcases hp : readParams pd with e | p
  · simp only [compute_core_equations, hp] at h
    exact Except.noConfusion h
  · rcases hd : pydiv p.chi vars.G with e | q
    · simp only [compute_core_equations, hp, hd] at h
      exact Except.noConfusion h
    · simp only [compute_core_equations, hp, hd] at h
      rw [Except.ok.injEq] at h
      subst h
      exact ⟨lo_le_np_clip _ _ _ (by norm_num), np_clip_le_hi _ _ _,
             lo_le_np_clip _ _ _ (by norm_num), np_clip_le_hi _ _ _⟩

/-- C5 witness: the post-clip invariant instantiated on the concrete C2
evaluation point (`phi_plus = 0.8`, `phi_minus = 0.02`). -/
theorem C5_witness :
    0.05 ≤ c2Core.phi_plus ∧ c2Core.phi_plus ≤ 0.8 ∧
    0.02 ≤ c2Core.phi_minus ∧ c2Core.phi_minus ≤ 0.6 :=
  C5_theorem c2Vars c2Params c2Core c2_eval

/-! ### Claim C6 -/

/-- C6: the proxy mapper is total and deterministic on every 15-element real
vector, each clamped intermediate variable lies within its documented bound,
`D` is the polarization input unchanged, and `Psi`, `G` and `gini` pass
through unclamped. -/
theorem C6_theorem (gdp_growth non_cash_ratio npl_ratio shadow_economy gini
    polarization net_migration digital_coverage electricity_access
    internet_penetration fintech_growth youth_unemployment
    debt_service_ratio crypto_estimate toxicity_index : ℝ) :
    ∃ v, calculate_intermediate_variables
        [gdp_growth, non_cash_ratio, npl_ratio, shadow_economy, gini,
         polarization, net_migration, digital_coverage, electricity_access,
         internet_penetration, fintech_growth, youth_unemployment,
         debt_service_ratio, crypto_estimate, toxicity_index] = Except.ok v ∧
      0.1 ≤ v.K_plus ∧ v.K_plus ≤ 0.95 ∧
      0.05 ≤ v.K_minus ∧ v.K_minus ≤ 0.8 ∧
      0.1 ≤ v.sigma_plus ∧ v.sigma_plus ≤ 0.9 ∧
      0.05 ≤ v.sigma_minus ∧ v.sigma_minus ≤ 0.8 ∧
      0.1 ≤ v.A ∧ v.A ≤ 0.9 ∧
      0.5 ≤ v.Lambda ∧ v.Lambda ≤ 3.0 ∧
      0.2 ≤ v.H ∧ v.H ≤ 1.0 ∧
      v.D = polarization ∧
      v.Psi = 1.0 - toxicity_index ∧
      v.G = (gdp_growth * 10) * 0.7 + electricity_access * 0.3 ∧
      v.gini = gini :=
  ⟨_, rfl,
   lo_le_np_clip _ _ _ (by norm_num), np_clip_le_hi _ _ _,
   lo_le_np_clip _ _ _ (by norm_num), np_clip_le_hi _ _ _,
   lo_le_np_clip _ _ _ (by norm_num), np_clip_le_hi _ _ _,
   lo_le_np_clip _ _ _ (by norm_num), np_clip_le_hi _ _ _,
   lo_le_np_clip _ _ _ (by norm_num), np_clip_le_hi _ _ _,
   lo_le_np_clip _ _ _ (by norm_num), np_clip_le_hi _ _ _,
   lo_le_np_clip _ _ _ (by norm_num), np_clip_le_hi _ _ _,
   rfl, rfl, rfl, rfl⟩

/-! ### Claim C9 -/

lemma calc_wrong_len (l : List ℝ) (h : l.length ≠ 15) :
    calculate_intermediate_variables l =
      Except.error "ValueError: proxy_values must have length 15" := by
  rcases l with _ | ⟨x1, l⟩
  · rfl
  rcases l with _ | ⟨x2, l⟩
  · rfl
  rcases l with _ | ⟨x3, l⟩
  · rfl
  rcases l with _ | ⟨x4, l⟩
  · rfl
  rcases l with _ | ⟨x5, l⟩
  · rfl
  rcases l with _ | ⟨x6, l⟩
  · rfl
  rcases l with _ | ⟨x7, l⟩
  · rfl
  rcases l with _ | ⟨x8, l⟩
  · rfl
  rcases l with _ | ⟨x9, l⟩
  · rfl
  rcases l with _ | ⟨x10, l⟩
  · rfl
  rcases l with _ | ⟨x11, l⟩
  · rfl
  rcases l with _ | ⟨x12, l⟩
  · rfl
  rcases l with _ | ⟨x13, l⟩
  · rfl
  rcases l with _ | ⟨x14, l⟩
  · rfl
  rcases l with _ | ⟨x15, l⟩
  · rfl
  rcases l with _ | ⟨x16, l⟩
  · simp at h
  · rfl

/-- C9: every proxy list whose length is not 15 is rejected with a
`ValueError` before any mapping: the orchestrator returns the error and no
intermediate variables, core results or diagnosis are produced. -/
theorem C9_theorem (proxies : List ℝ) (cp ct : Dict)
    (h : proxies.length ≠ 15) :
    quick_diagnose proxies cp ct =
      Except.error "ValueError: proxy_values must have length 15" := by
  simp only [quick_diagnose, calc_wrong_len proxies h]

/-- C9 witness: the rejection law instantiated on the empty proxy list. -/
theorem C9_witness :
    ([] : List ℝ).length ≠ 15 ∧
    quick_diagnose [] [] [] =
      Except.error "ValueError: proxy_values must have length 15" :=
  ⟨by decide, C9_theorem [] [] [] (by decide)⟩

/-! ### Claim C7 -/

/-- The default parameters with `omega` overridden to `5.0`. -/
def paramsOmega5 : EngineParams :=
  ⟨1.0, 2.0, 2.2, 0.1, 0.2, 0.05, 0.05, 0.1, 0.1, 0.08, 0.15, 0.2,
   0.05, 0.07, 0.1, 5.0⟩

lemma readParams_omega5 :
    readParams (("omega", 5.0) :: _MODEL_PARAMS) = Except.ok paramsOmega5 := rfl

/-- C7: for every proxy list, diagnosing with `custom_params = ("omega", 5.0)`
and no threshold overrides agrees with the default-parameter diagnosis on
every output that does not depend on TP: the intermediate variables,
`T_plus`, `T_minus`, `d_sigma_plus`, `d_sigma_minus`, `phi_plus`,
`phi_minus`, `eta`, and the non-TP diagnosis flags `phi_plus_ok` and
`phi_minus_safe`. -/
theorem C7_theorem (proxies : List ℝ) :
    (quick_diagnose proxies [("omega", 5.0)] []).map (fun r =>
      (r.intermediate_variables, r.core_results.T_plus, r.core_results.T_minus,
       r.core_results.d_sigma_plus, r.core_results.d_sigma_minus,
       r.core_results.phi_plus, r.core_results.phi_minus, r.core_results.eta,
       r.diagnosis.phi_plus_ok, r.diagnosis.phi_minus_safe)) =
    (quick_diagnose proxies [] []).map (fun r =>
      (r.intermediate_variables, r.core_results.T_plus, r.core_results.T_minus,
       r.core_results.d_sigma_plus, r.core_results.d_sigma_minus,
       r.core_results.phi_plus, r.core_results.phi_minus, r.core_results.eta,
       r.diagnosis.phi_plus_ok, r.diagnosis.phi_minus_safe)) := by
  rcases hv : calculate_intermediate_variables proxies with e | v
  · simp only [quick_diagnose, hv, Except.map]
  · simp only [quick_diagnose, pyMerge, List.singleton_append,
      List.nil_append, hv, compute_core_equations, readParams_omega5,
      readParams_default, paramsOmega5, defaultParams]
    rcases hd : pydiv (0.1 : ℝ) v.G with e | q
    · simp only [hd]
    · simp only [hd, diagnose_system, readThresholds_default, Except.map,
        diagnose_pure_phi_plus_ok, diagnose_pure_phi_minus_safe]

/-! ### Claim C8 -/

lemma dget_cons_ne (k s : String) (v : ℝ) (d : Dict) (h : s ≠ k) :
    dget ((k, v) :: d) s = dget d s := by
  simp [dget, List.lookup, beq_eq_false_iff_ne.mpr h]

lemma readParams_cons_ne (k : String) (v : ℝ) (d : Dict)
    (hk : k ∉ ["delta", "R", "R_plus", "alpha", "rho", "mu", "kappa", "chi",
               "beta_plus", "beta_minus", "tau", "iota", "zeta_plus",
               "zeta_minus", "lambda_", "omega"]) :
    readParams ((k, v) :: d) = readParams d := by
  simp only [List.mem_cons, List.not_mem_nil, or_false, not_or] at hk
  obtain ⟨h1, h2, h3, h4, h5, h6, h7, h8, h9, h10, h11, h12, h13, h14, h15,
    h16⟩ := hk
  unfold readParams
  rw [dget_cons_ne k "delta" v d (Ne.symm h1),
    dget_cons_ne k "R" v d (Ne.symm h2),
    dget_cons_ne k "R_plus" v d (Ne.symm h3),
    dget_cons_ne k "alpha" v d (Ne.symm h4),
    dget_cons_ne k "rho" v d (Ne.symm h5),
    dget_cons_ne k "mu" v d (Ne.symm h6),
    dget_cons_ne k "kappa" v d (Ne.symm h7),
    dget_cons_ne k "chi" v d (Ne.symm h8),
    dget_cons_ne k "beta_plus" v d (Ne.symm h9),
    dget_cons_ne k "beta_minus" v d (Ne.symm h10),
    dget_cons_ne k "tau" v d (Ne.symm h11),
    dget_cons_ne k "iota" v d (Ne.symm h12),
    dget_cons_ne k "zeta_plus" v d (Ne.symm h13),
    dget_cons_ne k "zeta_minus" v d (Ne.symm h14),
    dget_cons_ne k "lambda_" v d (Ne.symm h15),
    dget_cons_ne k "omega" v d (Ne.symm h16)]

/-- C8: a call whose `custom_params` contains a key that is none of the 16
defined parameter names is NOT rejected: the orchestrator succeeds and the
unknown key is blindly merged into the effective configuration
(`model_parameters_used`), contrary to the claim. -/
theorem C8_theorem (k : String) (v : ℝ)
    (hk : k ∉ ["delta", "R", "R_plus", "alpha", "rho", "mu", "kappa", "chi",
               "beta_plus", "beta_minus", "tau", "iota", "zeta_plus",
               "zeta_minus", "lambda_", "omega"]) :
    (quick_diagnose refProxies [(k, v)] []).map
      (fun r => List.lookup k r.model_parameters_used) =
      Except.ok (some v) := by
  have hdiv : pydiv (0.1 : ℝ) (0.608 : ℝ) = Except.ok (0.1 / 0.608) := by
    unfold pydiv
    rw [if_neg (by norm_num)]
  have hp : readParams ((k, v) :: _MODEL_PARAMS) = Except.ok defaultParams := by
    rw [readParams_cons_ne k v _MODEL_PARAMS hk, readParams_default]
  simp only [quick_diagnose, pyMerge, List.singleton_append, List.nil_append,
    calc_ref, compute_core_equations, hp, defaultParams, refVars, hdiv,
    diagnose_system, readThresholds_default, Except.map, Except.ok.injEq]
  simp [List.lookup]

/-- C8 witness: the silent-merge behaviour evaluated on the concrete unknown
key `omgea` (a typo of `omega`): the call succeeds and the typoed key is
present in the effective parameter mapping with its supplied value. -/
theorem C8_witness :
    (quick_diagnose refProxies [("omgea", 5.0)] []).map
      (fun r => List.lookup "omgea" r.model_parameters_used) =
      Except.ok (some 5.0) :=
  C8_theorem "omgea" 5.0 (by decide)

/-! ### Claim C10 -/

/-- C10: whenever the classifier returns status `deep_positive_transition`,
the warnings list is empty and all three threshold-met flags are true
(rule 1's conditions are exactly the negations of the two warning conditions
together with the `phi_plus` comparison). -/
theorem C10_theorem (pp pm tp : ℝ) (td : Dict) (d : Diagnosis)
    (hd : diagnose_system pp pm tp td = Except.ok d)
    (hs : d.status = "deep_positive_transition") :
    d.warnings = [] ∧ d.phi_plus_ok = true ∧ d.phi_minus_safe = true ∧
      d.TP_forward_ok = true := by
  rcases ht : readThresholds td with e | t
  · simp only [diagnose_system, ht] at hd
    exact Except.noConfusion hd
  · simp only [diagnose_system, ht] at hd
    rw [Except.ok.injEq] at hd
    subst hd
    rw [diagnose_pure_status] at hs
    split_ifs at hs with hc1 hc2 hc3
    · obtain ⟨h1, h2, h3⟩ := hc1
      refine ⟨?_, ?_, ?_, ?_⟩
      · rw [diagnose_pure_warnings, if_neg (not_lt.mpr h2),
          if_neg (not_lt.mpr h3)]
        rfl
      · rw [diagnose_pure_phi_plus_ok]
        exact decide_eq_true h1
      · rw [diagnose_pure_phi_minus_safe]
        exact decide_eq_true h2
      · rw [diagnose_pure_TP_forward_ok]
        exact decide_eq_true h3
    · exact absurd hs (by decide)
    · exact absurd hs (by decide)
    · exact absurd hs (by decide)

/-- The classifier output on `phi_plus = 0.4`, `phi_minus = 0.05`,
`TP = 0.6` with default thresholds: rule 1 fires. -/
def c10Diag : Diagnosis :=
  ⟨"deep_positive_transition", "✅ 深度正跃迁", "low", [], true, true, true⟩

lemma c10_eval :
    diagnose_system 0.4 0.05 0.6 _THRESHOLDS = Except.ok c10Diag := by
  simp only [diagnose_system, readThresholds_default, Except.ok.injEq]
  unfold diagnose_pure
  simp only [defaultThresholds]
  rw [if_pos (by norm_num : (0.4 : ℝ) ≥ 0.33 ∧ (0.05 : ℝ) ≤ 0.10 ∧ (0.6 : ℝ) ≥ 0.52)]
  simp only [c10Diag, Diagnosis.mk.injEq]
  norm_num [decide_eq_true_eq]

/-- C10 witness: the rule-1 law instantiated at
`(phi_plus, phi_minus, TP) = (0.4, 0.05, 0.6)` with default thresholds. -/
theorem C10_witness :
    c10Diag.warnings = [] ∧ c10Diag.phi_plus_ok = true ∧
    c10Diag.phi_minus_safe = true ∧ c10Diag.TP_forward_ok = true :=
  C10_theorem 0.4 0.05 0.6 _THRESHOLDS c10Diag c10_eval rfl

end Shang
